import Mathlib

/-!
Verification of the `discord_webhook_client` delivery engine
(`src/discord_webhook_client/client.py` and `models.py`).

The Python code is shallowly embedded: dataclasses become structures,
`str | None` becomes `Option String`, the payload dict produced by
`dataclasses.asdict` becomes a `Payload` structure (`asdict` deep-copies,
so the payload shares no mutable state with the caller's notification),
in-place dict mutation becomes pure `Payload → Payload` functions,
`raise ValueError(msg)` becomes `Except String`, and the HTTP session is
scripted as a list of abstract responses.  Python floats occurring in the
retry-delay logic are modelled as `ℚ` (only comparisons with 0 and the
literal 1.0 occur).
-/

namespace DiscordWebhook

/-- Python truthiness of a `str | None` value: `None` and `""` are falsy. -/
def truthy : Option String → Bool
  | none => false
  | some s => !s.isEmpty

/-- `models.DiscordNotificationField`: one name/value field of an embed. -/
structure DiscordNotificationField where
  name : Option String := none
  value : Option String := none
  inline : Bool := false
  deriving Repr, DecidableEq

/-- `models.DiscordNotificationEmbed`: an embed object. -/
structure DiscordNotificationEmbed where
  description : Option String := none
  color : Option Int := none
  fields : List DiscordNotificationField := []
  deriving Repr, DecidableEq

/-- `models.DiscordNotification`: the top-level webhook payload. -/
structure DiscordNotification where
  content : Option String := none
  username : Option String := none
  avatar_url : Option String := none
  embeds : List DiscordNotificationEmbed := []
  deriving Repr, DecidableEq

/-- The dict `dataclasses.asdict(data)` produces in `notify`.  Its keys are
exactly the dataclass fields, so it is represented by a structure of the
same shape; a separate type from `DiscordNotification` because the engine
mutates the dict but never the notification. -/
structure Payload where
  content : Option String := none
  username : Option String := none
  avatar_url : Option String := none
  embeds : List DiscordNotificationEmbed := []
  deriving Repr, DecidableEq

/-- `dataclasses.asdict(data)` (client.py line 69): recursively converts the
dataclass into fresh dicts/lists (documented to deep-copy all values), so
the result is an independent structural copy of the notification. -/
def asdict (data : DiscordNotification) : Payload :=
  { content := data.content
    username := data.username
    avatar_url := data.avatar_url
    embeds := data.embeds }

/-- Construction-time configuration of `DiscordClient.__init__`
(client.py lines 33–51), minus the session (modelled separately).
`url` is the stored `self.url`, i.e. already `url or "print"`. -/
structure ClientConfig where
  url : String := "print"
  default_username : Option String := some "Capitan Hook"
  default_avatar_url : Option String := some "https://github.com/1995parham.png"
  wait : Bool := true
  max_retries : Int := 1
  deriving Repr, DecidableEq

/-- `self.url = url or "print"` (client.py line 44): `None` and the empty
string both select print mode. -/
def storedUrl (url : Option String) : String :=
  match url with
  | none => "print"
  | some s => if s.isEmpty then "print" else s

/-- First statement of `DiscordClient._apply_defaults` (client.py lines
85–86): `if self.default_username and not payload.get("username")`. -/
def applyUsernameDefault (c : ClientConfig) (p : Payload) : Payload :=
  if truthy c.default_username && !truthy p.username then
    { p with username := c.default_username }
  else p

/-- Second statement of `DiscordClient._apply_defaults` (client.py lines
87–88): `if self.default_avatar_url and not payload.get("avatar_url")`. -/
def applyAvatarDefault (c : ClientConfig) (p : Payload) : Payload :=
  if truthy c.default_avatar_url && !truthy p.avatar_url then
    { p with avatar_url := c.default_avatar_url }
  else p

/-- `DiscordClient._apply_defaults` (client.py lines 84–88): fill in
`username` / `avatar_url` from the configured defaults only when the
default is truthy and the payload's value is falsy. -/
def applyDefaults (c : ClientConfig) (p : Payload) : Payload :=
  applyAvatarDefault c (applyUsernameDefault c p)

/-- Body of the inner loop of `DiscordClient._normalize_payload`
(client.py lines 93–94): a falsy field value becomes `"-"`. -/
def normalizeField (f : DiscordNotificationField) : DiscordNotificationField :=
  if truthy f.value then f else { f with value := some "-" }

/-- One embed's pass of `DiscordClient._normalize_payload` (line 92). -/
def normalizeEmbed (e : DiscordNotificationEmbed) : DiscordNotificationEmbed :=
  { e with fields := e.fields.map normalizeField }

/-- `DiscordClient._normalize_payload` (client.py lines 90–94). -/
def normalizePayload (p : Payload) : Payload :=
  { p with embeds := p.embeds.map normalizeEmbed }

/-- `payload.get(key) or ""` for an optional string key. -/
def getOrEmpty : Option String → String
  | none => ""
  | some s => s

/-- Per-field validation, the body of the innermost loop of
`DiscordClient._validate_payload` (client.py lines 130–138); a `raise`
aborts the whole validation, so the sequential checks are nested if-else. -/
def validateField (f : DiscordNotificationField) : Except String Unit :=
  if !truthy f.name then
    .error "Embed field name is required"
  else if !truthy f.value then
    .error "Embed field value is required"
  else if (getOrEmpty f.name).length > 256 then
    .error "Embed field name exceeds Discord limit of 256 characters"
  else if (getOrEmpty f.value).length > 1024 then
    .error "Embed field value exceeds Discord limit of 1024 characters"
  else
    .ok ()

/-- Sequential first-failure iteration over a list of fields
(the `for field in fields` loop, client.py line 130). -/
def validateFields : List DiscordNotificationField → Except String Unit
  | [] => .ok ()
  | f :: rest =>
    match validateField f with
    | .error m => .error m
    | .ok () => validateFields rest

/-- `color is not None and not (0 <= color <= 0xFFFFFF)` (client.py 122–123). -/
def colorInvalid : Option Int → Bool
  | none => false
  | some c => !(0 ≤ c && c ≤ 0xFFFFFF)

/-- Per-embed validation, the body of the outer loop of
`DiscordClient._validate_payload` (client.py lines 117–138). -/
def validateEmbed (e : DiscordNotificationEmbed) : Except String Unit :=
  if (getOrEmpty e.description).length > 4096 then
    .error "Embed description exceeds Discord limit of 4096 characters"
  else if colorInvalid e.color then
    .error "Embed color must be between 0x000000 and 0xFFFFFF"
  else if e.fields.length > 25 then
    .error "Discord allows a maximum of 25 embed fields"
  else
    validateFields e.fields

/-- Sequential first-failure iteration over the embeds
(the `for embed in embeds` loop, client.py line 117). -/
def validateEmbeds : List DiscordNotificationEmbed → Except String Unit
  | [] => .ok ()
  | e :: rest =>
    match validateEmbed e with
    | .error m => .error m
    | .ok () => validateEmbeds rest

/-- `DiscordClient._validate_payload` (client.py lines 96–138): sequential
first-violation checks, raising (`.error`) on the first failed one. -/
def validatePayload (p : Payload) : Except String Unit :=
  let content := getOrEmpty p.content
  let embeds := p.embeds
  if content.isEmpty && embeds.isEmpty then
    .error "Discord notification requires content or embeds"
  else if !content.isEmpty && content.length > 2000 then
    .error "Content exceeds Discord limit of 2000 characters"
  else if !(getOrEmpty p.username).isEmpty && (getOrEmpty p.username).length > 80 then
    .error "Username exceeds Discord limit of 80 characters"
  else if !(getOrEmpty p.avatar_url).isEmpty && (getOrEmpty p.avatar_url).length > 2048 then
    .error "Avatar URL exceeds Discord length limit"
  else if embeds.length > 10 then
    .error "Discord allows a maximum of 10 embeds"
  else
    validateEmbeds embeds

/-- Outcome of Python's `float(x)` on a hint value: either a number, or an
exception (`ValueError`/`TypeError` on a malformed value). -/
inductive FloatParse where
  | ok (q : ℚ)
  | fail
  deriving Repr, DecidableEq

/-- An HTTP response as consumed by `_post_with_retry` and
`_get_retry_after_seconds`: the status code, the body (kept abstract as a
string), and the two pre-parsed retry hints.
`jsonRetryAfter = none` models `response.json()` raising;
`some none` models a JSON body without a `retry_after` key (so
`body.get("retry_after", 0)` yields `0`);
`some (some r)` models a present key whose `float(...)` conversion gives `r`.
`headerRetryAfter = none` models an absent or empty `Retry-After` header
(`if header_retry:` is false); `some r` a present header whose
`float(header_retry)` gives `r`. -/
structure HttpResponse where
  status : Nat
  body : String := ""
  jsonRetryAfter : Option (Option FloatParse) := none
  headerRetryAfter : Option FloatParse := none
  deriving Repr, DecidableEq

/-- `DiscordClient._get_retry_after_seconds` (client.py lines 161–178):
try the body's `retry_after` field (used only when parsed and `> 0`;
any exception in `response.json()` or `float(...)` is swallowed), then the
`Retry-After` header (used whenever it parses, with no sign check;
`ValueError` swallowed), else `1.0`. -/
def getRetryAfterSeconds (r : HttpResponse) : ℚ :=
  let fromBody : Option ℚ :=
    match r.jsonRetryAfter with
    | none => none
    | some none => none
    | some (some .fail) => none
    | some (some (.ok q)) => if q > 0 then some q else none
  match fromBody with
  | some q => q
  | none =>
    match r.headerRetryAfter with
    | some (.ok q) => q
    | some .fail => 1
    | none => 1

/-- Spec-side definition (for the refinement claim about the delay chain),
written from the spec's words: "parse a `retry_after` numeric field from the
response body if present and > 0". -/
def specBodyHint (r : HttpResponse) : Option ℚ :=
  match r.jsonRetryAfter with
  | some (some (.ok q)) => if q > 0 then some q else none
  | _ => none

/-- Spec-side definition, from the spec's words: "else parse a `Retry-After`
response header as a number if present and parseable". -/
def specHeaderHint (r : HttpResponse) : Option ℚ :=
  match r.headerRetryAfter with
  | some (.ok q) => some q
  | _ => none

/-- `response.raise_for_status()` of the `requests` library: raises an
`HTTPError` exactly when `400 <= status_code < 600`. -/
def raisesForStatus (status : Nat) : Bool :=
  400 ≤ status && status < 600

/-- Terminal outcome of `_post_with_retry`. -/
inductive PostResult where
  /-- `return response`: `raise_for_status` did not raise. -/
  | success (r : HttpResponse)
  /-- `raise_for_status` raised: an HTTP delivery error carrying the
  response's status code and body. -/
  | httpError (status : Nat) (body : String)
  /-- Modelling artifact: the finite script of transport responses ran out
  while the loop wanted to post again. -/
  | transportExhausted
  deriving Repr, DecidableEq

/-- One run of the `while True` loop of `DiscordClient._post_with_retry`
(client.py lines 140–159), over a script of responses the session returns
to successive `post` calls.  Returns the total number of `post` calls made,
the list of `time.sleep` durations in order, and the terminal outcome.
`attempts` is the value of the Python `attempts` counter on entry
(`0` at the top-level call, line 141). -/
def postLoop (max_retries : Int) (attempts : Nat) :
    List HttpResponse → Nat × List ℚ × PostResult
  | [] => (0, [], .transportExhausted)
  | r :: rest =>
    let attempts := attempts + 1
    if r.status == 429 && (attempts : Int) ≤ max_retries + 1 then
      let d := getRetryAfterSeconds r
      let (n, sleeps, res) := postLoop max_retries attempts rest
      (n + 1, d :: sleeps, res)
    else if raisesForStatus r.status then
      (1, [], .httpError r.status r.body)
    else
      (1, [], .success r)

/-- `DiscordClient._post_with_retry` (client.py lines 140–159). -/
def postWithRetry (max_retries : Int) (responses : List HttpResponse) :
    Nat × List ℚ × PostResult :=
  postLoop max_retries 0 responses

/-- The exceptions `notify` can raise. -/
inductive NotifyError where
  /-- `ValueError` from `_validate_payload`. -/
  | validation (msg : String)
  /-- `HTTPError` from `raise_for_status` in `_post_with_retry`. -/
  | http (status : Nat) (body : String)
  /-- Modelling artifact: the finite transport script was too short. -/
  | transportExhausted
  deriving Repr, DecidableEq

/-- Everything observable about one `notify` call: how many times the
transport (`self._session.post`) was invoked, the payloads routed to
`logger.info` (print mode), the sleeps performed, and the result — either
a raised error or the returned value (`None` in print/bypass mode, the
final response in URL mode). -/
structure NotifyTrace where
  transportCalls : Nat
  logged : List Payload
  sleeps : List ℚ
  result : Except NotifyError (Option HttpResponse)
  deriving Repr

/-- The payload `notify` builds before dispatching (client.py lines 69–71):
`payload = dataclasses.asdict(data)` mutated in place by `_apply_defaults`
then `_normalize_payload`, i.e. the composition of the three stages. -/
def deliveredPayload (cfg : ClientConfig) (data : DiscordNotification) : Payload :=
  normalizePayload (applyDefaults cfg (asdict data))

/-- `DiscordClient.notify` (client.py lines 68–82): copy the notification
into a payload dict, apply defaults, normalize, validate, then dispatch on
the destination mode.  `responses` scripts the session's successive
responses in URL mode. -/
def notify (cfg : ClientConfig) (data : DiscordNotification)
    (responses : List HttpResponse) : NotifyTrace :=
  let payload := deliveredPayload cfg data
  match validatePayload payload with
  | .error msg => ⟨0, [], [], .error (.validation msg)⟩
  | .ok () =>
    if cfg.url == "print" then
      ⟨0, [payload], [], .ok none⟩
    else if cfg.url == "bypass" then
      ⟨0, [], [], .ok none⟩
    else
      let (n, sleeps, res) := postWithRetry cfg.max_retries responses
      match res with
      | .success r => ⟨n, [], sleeps, .ok (some r)⟩
      | .httpError s b => ⟨n, [], sleeps, .error (.http s b)⟩
      | .transportExhausted => ⟨n, [], sleeps, .error .transportExhausted⟩

/-- Mutation-aware wrapper for `notify`: the engine state threads the
caller's notification object alongside the engine-private payload dict.
`dataclasses.asdict` deep-copies, and `_apply_defaults` /
`_normalize_payload` mutate only the `payload` dict, so the notification
component is passed through every stage untouched; the wrapper returns the
caller's object as it stands after the call together with the trace. -/
def notifyStateful (cfg : ClientConfig) (data : DiscordNotification)
    (responses : List HttpResponse) : DiscordNotification × NotifyTrace :=
  (data, notify cfg data responses)

/-- An abstract `requests.Session`, identified by a tag.  A `Session`
object defines neither `__bool__` nor `__len__`, so it is always truthy in
`session or requests.Session()`. -/
structure Session where
  tag : Nat
  deriving Repr, DecidableEq

/-- The session-related state `DiscordClient.__init__` establishes
(client.py lines 50–51): `session or requests.Session()` keeps a supplied
session (always truthy) and otherwise constructs a fresh one;
`_owns_session = session is None`. -/
structure SessionState where
  session : Session
  owns_session : Bool
  deriving Repr, DecidableEq

/-- Lines 50–51 of `__init__`: `fresh` stands for the `requests.Session()`
constructed when none is supplied. -/
def initSession (supplied : Option Session) (fresh : Session) : SessionState :=
  { session := supplied.getD fresh
    owns_session := supplied.isNone }

/-- `DiscordClient.close` (client.py lines 64–66), also run by `__exit__`
on leaving a `with` block: returns the session that gets closed, if any. -/
def close (st : SessionState) : Option Session :=
  if st.owns_session then some st.session else none

/-! ### Helper lemmas -/

theorem getOrEmpty_isEmpty (o : Option String) : (getOrEmpty o).isEmpty = !truthy o := by
  cases o with
  | none => rfl
  | some s => simp [getOrEmpty, truthy]

theorem applyUsernameDefault_content (c : ClientConfig) (p : Payload) :
    (applyUsernameDefault c p).content = p.content := by
  unfold applyUsernameDefault; split <;> rfl

theorem applyUsernameDefault_embeds (c : ClientConfig) (p : Payload) :
    (applyUsernameDefault c p).embeds = p.embeds := by
  unfold applyUsernameDefault; split <;> rfl

theorem applyUsernameDefault_avatar (c : ClientConfig) (p : Payload) :
    (applyUsernameDefault c p).avatar_url = p.avatar_url := by
  unfold applyUsernameDefault; split <;> rfl

theorem applyAvatarDefault_content (c : ClientConfig) (p : Payload) :
    (applyAvatarDefault c p).content = p.content := by
  unfold applyAvatarDefault; split <;> rfl

theorem applyAvatarDefault_embeds (c : ClientConfig) (p : Payload) :
    (applyAvatarDefault c p).embeds = p.embeds := by
  unfold applyAvatarDefault; split <;> rfl

theorem applyAvatarDefault_username (c : ClientConfig) (p : Payload) :
    (applyAvatarDefault c p).username = p.username := by
  unfold applyAvatarDefault; split <;> rfl

theorem deliveredPayload_content (c : ClientConfig) (d : DiscordNotification) :
    (deliveredPayload c d).content = d.content := by
  simp [deliveredPayload, normalizePayload, applyDefaults,
    applyAvatarDefault_content, applyUsernameDefault_content, asdict]

theorem deliveredPayload_embeds (c : ClientConfig) (d : DiscordNotification) :
    (deliveredPayload c d).embeds = d.embeds.map normalizeEmbed := by
  simp [deliveredPayload, normalizePayload, applyDefaults,
    applyAvatarDefault_embeds, applyUsernameDefault_embeds, asdict]

theorem deliveredPayload_username (c : ClientConfig) (d : DiscordNotification) :
    (deliveredPayload c d).username =
      (applyUsernameDefault c (asdict d)).username := by
  simp [deliveredPayload, normalizePayload, applyDefaults, applyAvatarDefault_username]

/-! ### C1 -/

/-- C1: for every notification whose content is empty/absent and whose
embeds sequence is empty, `notify` raises the required-content-or-embeds
`ValueError` — in every destination mode, `print`/`bypass` included — and
the transport is never invoked. -/
theorem notify_empty_notification_raises (cfg : ClientConfig)
    (data : DiscordNotification) (responses : List HttpResponse)
    (hc : truthy data.content = false) (he : data.embeds = []) :
    (notify cfg data responses).result =
      .error (.validation "Discord notification requires content or embeds") ∧
    (notify cfg data responses).transportCalls = 0 := by
  have hcontent : (getOrEmpty (deliveredPayload cfg data).content).isEmpty = true := by
    rw [deliveredPayload_content, getOrEmpty_isEmpty, hc]; rfl
  have hembeds : (deliveredPayload cfg data).embeds = [] := by
    rw [deliveredPayload_embeds, he]; rfl
  have hv : validatePayload (deliveredPayload cfg data) =
      .error "Discord notification requires content or embeds" := by
    simp [validatePayload, hembeds, hcontent]
  refine ⟨?_, ?_⟩ <;> simp [notify, hv]

/-- Witness for C1 at the all-default notification in bypass mode. -/
theorem notify_empty_notification_raises_witness :
    truthy (DiscordNotification.content {}) = false ∧
    DiscordNotification.embeds {} = [] ∧
    ((notify { url := "bypass" } {} []).result =
        .error (.validation "Discord notification requires content or embeds") ∧
      (notify { url := "bypass" } {} []).transportCalls = 0) :=
  ⟨rfl, rfl, notify_empty_notification_raises { url := "bypass" } {} [] rfl rfl⟩

/-! ### C2 -/

/-- C2, counterexample to the claim as stated: a first response with status
304 is neither 2xx nor 429, yet `_post_with_retry` returns it to the caller
instead of raising an HTTP delivery error — `raise_for_status` only raises
for statuses in 400–599. -/
theorem postWithRetry_304_returned :
    ¬(200 ≤ 304 ∧ 304 < 300) ∧ (304 : Nat) ≠ 429 ∧
    (postWithRetry 1 [{ status := 304 }]).2.2 =
      .success { status := 304 } := by
  refine ⟨by decide, by decide, ?_⟩
  rfl

/-- C2 (amended): in URL mode, for every configured `max_retries` and any
attempt count so far: (1) a 429 is retried after the computed delay as long
as the attempts made so far (including the current one) are at most
`max_retries + 1`; (2) once attempts exceed `max_retries + 1`, a 429 is
final and raises the HTTP delivery error carrying its status and body;
(3) any other response with a 4xx/5xx status raises the HTTP delivery error
carrying the status code and response body without any further send;
(4) a 2xx response is returned to the caller. -/
theorem postLoop_retry_protocol (m : Int) (attempts : Nat) (r : HttpResponse)
    (rest : List HttpResponse) :
    (r.status = 429 → ((attempts : Int) + 1) ≤ m + 1 →
      postLoop m attempts (r :: rest) =
        ((postLoop m (attempts + 1) rest).1 + 1,
         getRetryAfterSeconds r :: (postLoop m (attempts + 1) rest).2.1,
         (postLoop m (attempts + 1) rest).2.2)) ∧
    (r.status = 429 → m + 1 < ((attempts : Int) + 1) →
      postLoop m attempts (r :: rest) = (1, [], .httpError 429 r.body)) ∧
    (r.status ≠ 429 → 400 ≤ r.status → r.status < 600 →
      postLoop m attempts (r :: rest) = (1, [], .httpError r.status r.body)) ∧
    (200 ≤ r.status → r.status < 300 →
      postLoop m attempts (r :: rest) = (1, [], .success r)) := by
  refine ⟨?_, ?_, ?_, ?_⟩
  · intro h1 h2
    rcases hp : postLoop m (attempts + 1) rest with ⟨n, sleeps, res⟩
    simp [postLoop, h1, h2, hp]
  · intro h1 h2
    have h2' : ¬(((attempts : Int) + 1) ≤ m + 1) := by omega
    simp [postLoop, h1, h2', raisesForStatus]
  · intro h1 h2 h3
    have hr : raisesForStatus r.status = true := by
      simp [raisesForStatus]; omega
    simp [postLoop, h1, hr]
  · intro h1 h2
    have hne : r.status ≠ 429 := by omega
    have hr : raisesForStatus r.status = false := by
      simp [raisesForStatus]; omega
    simp [postLoop, hne, hr]

/-! ### C3 -/

/-- C3: for every 429 response the retry delay equals the spec's ordered
fallback chain — the body's `retry_after` field when present, parseable and
`> 0`; else the `Retry-After` header when present and parseable; else
exactly 1.0 seconds.  `getRetryAfterSeconds` is a total function, so a
malformed body or header never raises: it degrades to the next step and
ultimately to the 1.0 default. -/
theorem getRetryAfterSeconds_fallback_chain (r : HttpResponse) :
    getRetryAfterSeconds r = (specBodyHint r).getD ((specHeaderHint r).getD 1) := by
  rcases r with ⟨s, b, j, h⟩
  rcases j with _ | (_ | (q | _))
  · rcases h with _ | (q' | _) <;> rfl
  · rcases h with _ | (q' | _) <;> rfl
  · by_cases hq : 0 < q
    · rcases h with _ | (q' | _) <;>
        simp [getRetryAfterSeconds, specBodyHint, specHeaderHint, hq]
    · rcases h with _ | (q' | _) <;>
        simp [getRetryAfterSeconds, specBodyHint, specHeaderHint, hq]
  · rcases h with _ | (q' | _) <;> rfl

/-! ### C4 -/

/-- C4: after normalization, the field at any position `(i, j)` of the
payload's embeds has value `"-"` when its value was empty or absent, and is
left completely unchanged when its value was non-empty. -/
theorem normalizePayload_fields (p : Payload) (i j : Nat)
    (e : DiscordNotificationEmbed) (f : DiscordNotificationField)
    (he : p.embeds[i]? = some e) (hf : e.fields[j]? = some f) :
    ∃ e', (normalizePayload p).embeds[i]? = some e' ∧
      (truthy f.value = false → e'.fields[j]? = some { f with value := some "-" }) ∧
      (truthy f.value = true → e'.fields[j]? = some f) := by
  refine ⟨normalizeEmbed e, ?_, ?_, ?_⟩
  · simp [normalizePayload, he]
  · intro h
    simp [normalizeEmbed, hf, normalizeField, h]
  · intro h
    simp [normalizeEmbed, hf, normalizeField, h]

/-- Witness for C4: a single embed holding one empty-valued field. -/
theorem normalizePayload_fields_witness :
    ∃ e', (normalizePayload
        { embeds := [{ fields := [{ name := none, value := none, inline := false }] }] }
        ).embeds[0]? = some e' ∧
      (truthy (none : Option String) = false →
        e'.fields[0]? = some { name := none, value := some "-", inline := false }) ∧
      (truthy (none : Option String) = true →
        e'.fields[0]? = some { name := none, value := none, inline := false }) := by
  exact normalizePayload_fields
    { embeds := [{ fields := [{ name := none, value := none, inline := false }] }] }
    0 0 { fields := [{ name := none, value := none, inline := false }] }
    { name := none, value := none, inline := false } rfl rfl

/-! ### C5 -/

theorem deliveredPayload_avatar (c : ClientConfig) (d : DiscordNotification) :
    (deliveredPayload c d).avatar_url =
      (applyAvatarDefault c (applyUsernameDefault c (asdict d))).avatar_url := rfl

/-- C5: in the payload produced for delivery, a configured (truthy) default
username / avatar URL fills the corresponding field exactly when the
notification left it empty or absent; a non-empty value set by the caller
is preserved unchanged, never overwritten by a default. -/
theorem deliveredPayload_defaults (cfg : ClientConfig) (data : DiscordNotification) :
    ((truthy cfg.default_username = true → truthy data.username = false →
        (deliveredPayload cfg data).username = cfg.default_username) ∧
      (truthy data.username = true →
        (deliveredPayload cfg data).username = data.username)) ∧
    ((truthy cfg.default_avatar_url = true → truthy data.avatar_url = false →
        (deliveredPayload cfg data).avatar_url = cfg.default_avatar_url) ∧
      (truthy data.avatar_url = true →
        (deliveredPayload cfg data).avatar_url = data.avatar_url)) := by
  refine ⟨⟨?_, ?_⟩, ?_, ?_⟩
  · intro h1 h2
    rw [deliveredPayload_username]
    simp [applyUsernameDefault, asdict, h1, h2]
  · intro h2
    rw [deliveredPayload_username]
    simp [applyUsernameDefault, asdict, h2]
  · intro h1 h2
    rw [deliveredPayload_avatar]
    simp [applyAvatarDefault, applyUsernameDefault_avatar, asdict, h1, h2]
  · intro h2
    rw [deliveredPayload_avatar]
    simp [applyAvatarDefault, applyUsernameDefault_avatar, asdict, h2]

/-! ### C6 -/

/-- C6: an unset destination is stored as `print`; in `print` and `bypass`
mode `notify` never invokes the transport, and — when validation succeeds —
returns no response, routing the payload to the logger exactly in `print`
mode. -/
theorem notify_dev_modes (cfg : ClientConfig) (data : DiscordNotification)
    (responses : List HttpResponse)
    (h : cfg.url = "print" ∨ cfg.url = "bypass") :
    storedUrl none = "print" ∧
    (notify cfg data responses).transportCalls = 0 ∧
    (validatePayload (deliveredPayload cfg data) = .ok () →
      (notify cfg data responses).result = .ok none ∧
      (notify cfg data responses).logged =
        (if cfg.url = "print" then [deliveredPayload cfg data] else [])) := by
  refine ⟨rfl, ?_, ?_⟩
  · cases hv : validatePayload (deliveredPayload cfg data) with
    | error m => simp [notify, hv]
    | ok u => rcases h with h | h <;> simp [notify, hv, h]
  · intro hv
    rcases h with h | h <;> simp [notify, hv, h]

/-- Witness for C6: print mode on a minimal valid notification. -/
theorem notify_dev_modes_witness :
    storedUrl none = "print" ∧
    (notify { url := "print" } { content := some "hi" } []).transportCalls = 0 ∧
    (validatePayload (deliveredPayload { url := "print" } { content := some "hi" }) = .ok () →
      (notify { url := "print" } { content := some "hi" } []).result = .ok none ∧
      (notify { url := "print" } { content := some "hi" } []).logged =
        (if ({ url := "print" } : ClientConfig).url = "print"
          then [deliveredPayload { url := "print" } { content := some "hi" }] else [])) :=
  notify_dev_modes { url := "print" } { content := some "hi" } [] (Or.inl rfl)

/-! ### C7 -/

/-- C7: `notify` never mutates the caller's notification: the payload is a
deep copy (`dataclasses.asdict`) and `_apply_defaults` / `_normalize_payload`
mutate only that copy, so the caller's object after the call — whether the
call returned or raised — is exactly what was passed in. -/
theorem notifyStateful_preserves_notification (cfg : ClientConfig)
    (data : DiscordNotification) (responses : List HttpResponse) :
    (notifyStateful cfg data responses).1 = data := rfl

/-! ### C8 -/

/-- C8: the engine owns the session exactly when the caller supplied none;
on teardown the owned (freshly constructed) session is closed, and a
caller-supplied session is never closed. -/
theorem close_session_ownership (supplied : Option Session) (fresh : Session) :
    ((initSession supplied fresh).owns_session = true ↔ supplied = none) ∧
    (supplied = none → close (initSession supplied fresh) = some fresh) ∧
    (∀ s, supplied = some s → close (initSession supplied fresh) = none) := by
  cases supplied <;> simp [initSession, close]

/-! ### C9 -/

/-- C9: validation limits are strict.  A username of at most 80 characters
(80 included) validates exactly as no username at all — the length check
cannot fire — while 81 characters fails with the violation naming the
username limit (whenever the earlier content checks pass).  Exactly 10
embeds pass the count check (the payload validates whenever every other
check passes), while 11 embeds fail with the violation naming the embeds
maximum. -/
theorem validatePayload_boundaries :
    (∀ (p : Payload) (u : String), u.length ≤ 80 →
      validatePayload { p with username := some u } =
        validatePayload { p with username := none }) ∧
    (∀ (p : Payload) (u : String), u.length = 81 →
      ((getOrEmpty p.content).isEmpty = false ∨ p.embeds ≠ []) →
      (getOrEmpty p.content).length ≤ 2000 →
      validatePayload { p with username := some u } =
        .error "Username exceeds Discord limit of 80 characters") ∧
    (∀ p : Payload, p.embeds.length = 11 →
      (getOrEmpty p.content).length ≤ 2000 →
      (getOrEmpty p.username).length ≤ 80 →
      (getOrEmpty p.avatar_url).length ≤ 2048 →
      validatePayload p = .error "Discord allows a maximum of 10 embeds") ∧
    (∀ p : Payload, p.embeds.length = 10 →
      (getOrEmpty p.content).length ≤ 2000 →
      (getOrEmpty p.username).length ≤ 80 →
      (getOrEmpty p.avatar_url).length ≤ 2048 →
      validateEmbeds p.embeds = .ok () →
      validatePayload p = .ok ()) := by
  refine ⟨?_, ?_, ?_, ?_⟩
  · intro p u hu
    have h80 : ¬(u.length > 80) := by omega
    simp [validatePayload, getOrEmpty, h80]
  · intro p u h81 hne h2000
    have hu0 : u ≠ "" := by
      intro hEq; rw [hEq] at h81; simp at h81
    have huE : u.isEmpty = false := by
      rw [Bool.eq_false_iff]
      intro hT
      exact hu0 ((String.isEmpty_iff u).mp hT)
    have hc1 : ¬((getOrEmpty p.content).isEmpty = true ∧ p.embeds = []) := by
      rintro ⟨h1, h2⟩
      rcases hne with hne | hne
      · rw [hne] at h1; cases h1
      · exact hne h2
    have hc2 : ¬((getOrEmpty p.content).isEmpty = false ∧
        2000 < (getOrEmpty p.content).length) := by
      rintro ⟨_, hgt⟩; omega
    have h81' : u.length > 80 := by omega
    have hsome : getOrEmpty (some u) = u := rfl
    simp [validatePayload, hsome, huE, h81', hc1, hc2]
  · intro p hlen h2000 hu ha
    have hE : p.embeds.isEmpty = false := by
      cases hE : p.embeds with
      | nil => rw [hE] at hlen; simp at hlen
      | cons a l => simp
    have hc2 : ¬((getOrEmpty p.content).length > 2000) := by omega
    have hcu : ¬((getOrEmpty p.username).length > 80) := by omega
    have hca : ¬((getOrEmpty p.avatar_url).length > 2048) := by omega
    simp [validatePayload, hE, hc2, hcu, hca, hlen]
  · intro p hlen h2000 hu ha hembeds
    have hE : p.embeds.isEmpty = false := by
      cases hE : p.embeds with
      | nil => rw [hE] at hlen; simp at hlen
      | cons a l => simp
    have hc2 : ¬((getOrEmpty p.content).length > 2000) := by omega
    have hcu : ¬((getOrEmpty p.username).length > 80) := by omega
    have hca : ¬((getOrEmpty p.avatar_url).length > 2048) := by omega
    simp [validatePayload, hE, hc2, hcu, hca, hlen, hembeds]

/-! ### C10 -/

theorem truthy_normalizeField (f : DiscordNotificationField) :
    truthy (normalizeField f).value = true := by
  unfold normalizeField
  split
  · assumption
  · rfl

theorem validateField_ne_value_required (f : DiscordNotificationField)
    (h : truthy f.value = true) :
    validateField f ≠ .error "Embed field value is required" := by
  simp only [validateField, h]
  split
  · simp
  · simp only [Bool.not_true, Bool.false_eq_true, if_false]
    split
    · simp
    · split
      · simp
      · simp

theorem validateFields_ne_value_required (l : List DiscordNotificationField)
    (h : ∀ f ∈ l, truthy f.value = true) :
    validateFields l ≠ .error "Embed field value is required" := by
  induction l with
  | nil => simp [validateFields]
  | cons f rest ih =>
    have hf := validateField_ne_value_required f (h f (by simp))
    have hrest := ih (fun g hg => h g (by simp [hg]))
    cases hv : validateField f with
    | error m =>
      have hm : m ≠ "Embed field value is required" := by
        intro hEq
        exact hf (by rw [hv, hEq])
      simp [validateFields, hv, hm]
    | ok u =>
      cases u
      simpa [validateFields, hv] using hrest

theorem validateEmbed_ne_value_required (e : DiscordNotificationEmbed)
    (h : ∀ f ∈ e.fields, truthy f.value = true) :
    validateEmbed e ≠ .error "Embed field value is required" := by
  have hfields := validateFields_ne_value_required e.fields h
  unfold validateEmbed
  split
  · simp
  · split
    · simp
    · split
      · simp
      · exact hfields

theorem validateEmbeds_ne_value_required (l : List DiscordNotificationEmbed)
    (h : ∀ e ∈ l, ∀ f ∈ e.fields, truthy f.value = true) :
    validateEmbeds l ≠ .error "Embed field value is required" := by
  induction l with
  | nil => simp [validateEmbeds]
  | cons e rest ih =>
    have he := validateEmbed_ne_value_required e (h e (by simp))
    have hrest := ih (fun g hg => h g (by simp [hg]))
    cases hv : validateEmbed e with
    | error m =>
      have hm : m ≠ "Embed field value is required" := by
        intro hEq
        exact he (by rw [hv, hEq])
      simp [validateEmbeds, hv, hm]
    | ok u =>
      cases u
      simpa [validateEmbeds, hv] using hrest

theorem validatePayload_ne_value_required (p : Payload)
    (h : ∀ e ∈ p.embeds, ∀ f ∈ e.fields, truthy f.value = true) :
    validatePayload p ≠ .error "Embed field value is required" := by
  have hembeds := validateEmbeds_ne_value_required p.embeds h
  simp only [validatePayload]
  split
  · simp
  · split
    · simp
    · split
      · simp
      · split
        · simp
        · split
          · simp
          · exact hembeds

theorem normalized_fields_truthy (p : Payload) :
    ∀ e ∈ (normalizePayload p).embeds, ∀ f ∈ e.fields, truthy f.value = true := by
  intro e he f hf
  simp only [normalizePayload, List.mem_map] at he
  obtain ⟨e0, _, rfl⟩ := he
  simp only [normalizeEmbed, List.mem_map] at hf
  obtain ⟨f0, _, rfl⟩ := hf
  exact truthy_normalizeField f0

/-- C10: because `_normalize_payload` (which replaces every empty/absent
field value with `"-"`) always runs before `_validate_payload` inside
`notify`, the branch raising `Embed field value is required` is
unreachable: `notify` never raises that error, for any notification,
configuration and transport behaviour. -/
theorem notify_never_missing_field_value (cfg : ClientConfig)
    (data : DiscordNotification) (responses : List HttpResponse) :
    (notify cfg data responses).result ≠
      .error (.validation "Embed field value is required") := by
  have hval : validatePayload (deliveredPayload cfg data) ≠
      .error "Embed field value is required" :=
    validatePayload_ne_value_required _
      (normalized_fields_truthy (applyDefaults cfg (asdict data)))
  cases hv : validatePayload (deliveredPayload cfg data) with
  | error m =>
    have hm : m ≠ "Embed field value is required" := by
      intro hEq
      exact hval (by rw [hv, hEq])
    simp [notify, hv, hm]
  | ok u =>
    cases u
    rcases hpost : postWithRetry cfg.max_retries responses with ⟨n, sleeps, res⟩
    by_cases h1 : cfg.url = "print"
    · simp [notify, hv, h1]
    · by_cases h2 : cfg.url = "bypass"
      · simp [notify, hv, h1, h2]
      · cases res <;> simp [notify, hv, h1, h2, hpost]

end DiscordWebhook
